import Mathlib

/-!
Verification of the x-win active-window engine specification.

The repository ships the engine behind a native adapter; the checked-in
sources are the reference test suite (`__test__/index.spec.mjs`) and the
release script (`.scripts/cleanup-package.cjs`).  The engine itself
(struct normalizer, snapshot reader, active-window watcher, subscription
registry) is therefore modelled from the specification, while the release
script is embedded directly from its source.
-/

namespace XWin

/-- Modelled from the spec: rectangle of integer screen coordinates and
size (section 3, `position`). -/
structure WindowPosition where
  x : Int
  y : Int
  width : Int
  height : Int
  deriving DecidableEq, Repr

/-- Modelled from the spec: owning-process metadata (section 3, `info`). -/
structure WindowInfoData where
  execName : String
  name : String
  path : String
  processId : Nat
  deriving DecidableEq, Repr

/-- Modelled from the spec: resident-memory usage (section 3, `usage`). -/
structure WindowUsage where
  memory : Nat
  deriving DecidableEq, Repr

/-- Modelled from the spec: the canonical `WindowInfo` record of section 3.
Every field is present by construction, matching the invariant that no
field is ever absent. -/
structure WindowInfo where
  os : String
  info : WindowInfoData
  position : WindowPosition
  processId : Nat
  title : String
  usage : WindowUsage
  deriving DecidableEq, Repr

/-- Modelled from the spec: raw, possibly incomplete facts returned by the
Platform Query Adapter (sections 2 and 6); a `none` field is one the
adapter could not supply. -/
structure RawWindowFacts where
  title : Option String
  execName : Option String
  name : Option String
  path : Option String
  processId : Option Nat
  position : Option WindowPosition
  memory : Option Nat
  deriving DecidableEq, Repr

/-- Modelled from the spec: result of the adapter query for the active
window (section 6): raw facts, unsupported platform, or an OS permission
denial that still carries the retrievable subset of facts (section 7,
`PermissionError` - the call still returns a best-effort record). -/
inductive AdapterResult where
  | ok (raw : RawWindowFacts)
  | unsupported
  | permissionDenied (retrievable : RawWindowFacts)
  deriving DecidableEq, Repr

/-- Modelled from the spec: result of the adapter enumeration primitive
`queryAllWindows` (section 6). -/
inductive EnumResult where
  | ok (raws : List RawWindowFacts)
  | unsupported
  deriving DecidableEq, Repr

/-- Modelled from the spec: the error taxonomy surfaced to direct callers
(section 7). -/
inductive XWinError where
  | platformUnsupported
  deriving DecidableEq, Repr

/-- Modelled from the spec: the Struct Normalizer (section 4.1), a total
pure mapping filling every unavailable field with its documented default;
the platform identifier is taken from the host environment, never from
the adapter. -/
def normalize (host : String) (raw : RawWindowFacts) : WindowInfo :=
  let pid := raw.processId.getD 0
  { os := host
    info :=
      { execName := raw.execName.getD ""
        name := raw.name.getD ""
        path := raw.path.getD ""
        processId := pid }
    position := raw.position.getD ⟨0, 0, 0, 0⟩
    processId := pid
    title := raw.title.getD ""
    usage := { memory := raw.memory.getD 0 } }

/-- Modelled from the spec: the Snapshot Reader pull operation
`activeWindow()` (section 4.2): invokes the adapter once, normalizes, and
raises only on a hard platform failure; a permission denial still yields
a best-effort normalized record. -/
def activeWindow (host : String) (adapter : AdapterResult) :
    Except XWinError WindowInfo :=
  match adapter with
  | .ok raw => .ok (normalize host raw)
  | .unsupported => .error .platformUnsupported
  | .permissionDenied retrievable => .ok (normalize host retrievable)

/-- Modelled from the spec: the Snapshot Reader pull operation
`openWindows()` (section 4.2): enumerates once and normalizes each entry,
returning an empty sequence rather than an error when nothing is
enumerable. -/
def openWindows (host : String) (adapter : EnumResult) :
    Except XWinError (List WindowInfo) :=
  match adapter with
  | .ok raws => .ok (raws.map (normalize host))
  | .unsupported => .error .platformUnsupported

/-- Modelled from the spec: outcome of running one subscriber callback;
`raised` records that the callback threw (section 4.4, failures are
isolated per callback). -/
inductive CallbackResult where
  | ok
  | raised
  deriving DecidableEq, Repr

/-- Modelled from the spec: a subscriber callback, invoked with one
`WindowInfo` per detected change (section 3, `Subscription`). -/
def Callback : Type := WindowInfo → CallbackResult

/-- Modelled from the spec: the process-wide `WatcherState` singleton
(section 3) together with the monotonic counter backing handle
issuance. -/
structure WatcherState where
  lastActiveWindow : Option WindowInfo
  subscriptions : List (Int × Callback)
  pollTimerArmed : Bool
  nextHandle : Int

/-- Modelled from the spec: the state before any subscription (section 3,
lifecycle; section 4.3, Idle). -/
def initialState : WatcherState :=
  { lastActiveWindow := none
    subscriptions := []
    pollTimerArmed := false
    nextHandle := 0 }

/-- Modelled from the spec: the stable equality key used to decide that
the active window changed - process id, title and position, not full
structural equality (section 4.3). -/
def sameWindowKey (a b : WindowInfo) : Bool :=
  decide (a.processId = b.processId ∧ a.title = b.title ∧ a.position = b.position)

/-- Modelled from the spec: `notifyAll(info)` of the Subscription
Registry (section 4.4): invokes every currently registered callback with
`info`; the delivery log records each invocation and its outcome, and a
raised error never truncates the log. -/
def notifyAll (subs : List (Int × Callback)) (info : WindowInfo) :
    List (Int × CallbackResult) :=
  subs.map (fun s => (s.1, s.2 info))

/-- Modelled from the spec: one tick of the Active-Window Watcher
(section 4.3): when the timer is armed, take a fresh snapshot, swallow a
failed snapshot, and otherwise diff against `lastActiveWindow` under the
equality key, updating the cache and fanning out on change. -/
def tick (host : String) (adapter : AdapterResult) (st : WatcherState) :
    WatcherState × List (Int × CallbackResult) :=
  if st.pollTimerArmed then
    match activeWindow host adapter with
    | .error _ => (st, [])
    | .ok w =>
        match st.lastActiveWindow with
        | none => ({ st with lastActiveWindow := some w }, notifyAll st.subscriptions w)
        | some prev =>
            if sameWindowKey prev w then (st, [])
            else ({ st with lastActiveWindow := some w }, notifyAll st.subscriptions w)
  else (st, [])

/-- Modelled from the spec: `subscribeActiveWindow` (sections 4.4 and
4.5): allocates a fresh unique handle, stores the pair and arms the
watcher. -/
def subscribeActiveWindow (cb : Callback) (st : WatcherState) :
    Int × WatcherState :=
  let h := st.nextHandle
  (h, { st with
          subscriptions := st.subscriptions ++ [(h, cb)]
          nextHandle := h + 1
          pollTimerArmed := true })

/-- Modelled from the spec: disarm the watcher and clear
`lastActiveWindow` when the subscription map becomes empty (section 3,
lifecycle). -/
def disarmIfEmpty (st : WatcherState) : WatcherState :=
  if st.subscriptions.isEmpty then
    { st with pollTimerArmed := false, lastActiveWindow := none }
  else st

/-- Modelled from the spec: `unsubscribeActiveWindow` (sections 4.4 and
4.5): removes the entry when present, a no-op otherwise, and disarms the
watcher when the map becomes empty. -/
def unsubscribeActiveWindow (h : Int) (st : WatcherState) : WatcherState :=
  disarmIfEmpty
    { st with subscriptions := st.subscriptions.filter (fun s => s.1 != h) }

/-- Modelled from the spec: `unsubscribeAllActiveWindow` (sections 4.4
and 4.5): clears every entry and disarms the watcher. -/
def unsubscribeAllActiveWindow (st : WatcherState) : WatcherState :=
  { st with
      subscriptions := []
      pollTimerArmed := false
      lastActiveWindow := none }

/-- Modelled from the spec: the operations that can touch the watcher
state during a process lifetime (section 4.5 plus the watcher tick). -/
inductive Op where
  | subscribe (cb : Callback)
  | unsubscribe (h : Int)
  | unsubscribeAll
  | tickOp (host : String) (adapter : AdapterResult)

/-- Modelled from the spec: the state transition of one operation. -/
def applyOp (op : Op) (st : WatcherState) : WatcherState :=
  match op with
  | .subscribe cb => (subscribeActiveWindow cb st).2
  | .unsubscribe h => unsubscribeActiveWindow h st
  | .unsubscribeAll => unsubscribeAllActiveWindow st
  | .tickOp host adapter => (tick host adapter st).1

/-- Modelled from the spec: running a sequence of operations. -/
def run (ops : List Op) (st : WatcherState) : WatcherState :=
  match ops with
  | [] => st
  | op :: rest => run rest (applyOp op st)

/-- Modelled from the spec: a sequence of watcher ticks, accumulating
every delivery they make. -/
def runTicks (queries : List (String × AdapterResult)) (st : WatcherState) :
    WatcherState × List (Int × CallbackResult) :=
  match queries with
  | [] => (st, [])
  | (host, a) :: rest =>
      let step := tick host a st
      let further := runTicks rest step.1
      (further.1, step.2 ++ further.2)

/-- Modelled from the spec: the watcher lifecycle invariant (section 3):
the poll timer is armed exactly when the subscription map is non-empty,
and `lastActiveWindow` is `null` whenever the timer is disarmed. -/
def LifecycleInv (st : WatcherState) : Prop :=
  (st.pollTimerArmed = true ↔ st.subscriptions ≠ []) ∧
  (st.pollTimerArmed = false → st.lastActiveWindow = none)

/-- Sample adapter answer with every fact missing. -/
def sampleRawEmpty : RawWindowFacts :=
  { title := none
    execName := none
    name := none
    path := none
    processId := none
    position := none
    memory := none }

/-- Sample adapter answer for a concrete focused window. -/
def sampleRawActive : RawWindowFacts :=
  { title := some "editor"
    execName := some "code"
    name := some "code"
    path := some "/usr/bin/code"
    processId := some 7
    position := some ⟨10, 20, 640, 480⟩
    memory := some 4096 }

/-- Sample normalized window used by concrete evaluations. -/
def sampleWindow : WindowInfo := normalize "linux" sampleRawEmpty

/-- Sample subscriber callback that never raises. -/
def sampleCb : Callback := fun _ => .ok

/-- Sample polling state with one subscriber and a cached snapshot. -/
def sampleState : WatcherState :=
  { lastActiveWindow := some sampleWindow
    subscriptions := [(0, sampleCb)]
    pollTimerArmed := true
    nextHandle := 1 }

end XWin

namespace CleanupPackage

/-!
Embedding of `.scripts/cleanup-package.cjs`.  JavaScript strings are
modelled as lists of characters and the on-disk `package.json` as a JSON
value; `process.exit` and `fs.writeFileSync` become the explicit outcome
record below.
-/

/-- JSON values, enough to describe a `package.json` object: an object is
an ordered association list of fields, mirroring the insertion order that
`JSON.stringify` preserves. -/
inductive Json where
  | null
  | bool (b : Bool)
  | num (n : Int)
  | str (s : String)
  | arr (elems : List Json)
  | obj (fields : List (String × Json))

/-- Field lookup in a JSON object association list, i.e. JavaScript
property access `o.k` on the fields of an object. -/
def lookupField (fields : List (String × Json)) (k : String) : Option Json :=
  match fields with
  | [] => none
  | (k', v) :: rest => if k' = k then some v else lookupField rest k

/-- JavaScript `delete o.k`: removes the field when present, a no-op
otherwise. -/
def deleteField (fields : List (String × Json)) (k : String) :
    List (String × Json) :=
  match fields with
  | [] => []
  | (k', v) :: rest =>
      if k' = k then deleteField rest k
      else (k', v) :: deleteField rest k

/-- JavaScript property assignment `o.k = v`: replaces the field in place
when present, appends it otherwise. -/
def setField (fields : List (String × Json)) (k : String) (v : Json) :
    List (String × Json) :=
  match fields with
  | [] => [(k, v)]
  | (k', v') :: rest =>
      if k' = k then (k', v) :: rest
      else (k', v') :: setField rest k v

/-- `process.env.TAG.startsWith('v') ? process.env.TAG.substring(1) :
process.env.TAG` with the JavaScript string as a character list
(cleanup-package.cjs line 5). -/
def version (tag : List Char) : List Char :=
  if tag.head? = some 'v' then tag.drop 1 else tag

/-- `delete packageJson.devDependencies.ava` and `...husky`
(cleanup-package.cjs lines 20-21): property access on `undefined` or
`null` throws a TypeError (modelled as `none`); on any other non-object
value `delete` is a silent no-op in sloppy mode. -/
def deleteDevDeps (fields : List (String × Json)) :
    Option (List (String × Json)) :=
  match lookupField fields "devDependencies" with
  | none => none
  | some .null => none
  | some (.obj dd) =>
      some (setField fields "devDependencies"
        (.obj (deleteField (deleteField dd "ava") "husky")))
  | some _ => some fields

/-- Lines 19-24 of cleanup-package.cjs: the in-memory rewrite of the
parsed `package.json` object; `none` when the script throws. -/
def rewritePackageJson (pj : Json) : Option Json :=
  match pj with
  | .obj fields =>
      match deleteDevDeps fields with
      | none => none
      | some fields1 =>
          some (.obj (setField
            (deleteField (deleteField fields1 "ava") "packageManager")
            "scripts" (.obj [])))
  | _ => none

/-- Observable outcome of one run of the script: the process exit status,
and every `fs.writeFileSync` call in order. -/
structure ScriptOutcome where
  exitCode : Nat
  writes : List Json

/-- The whole of cleanup-package.cjs as a function of the `TAG`
environment variable (`none` when unset; the empty string is falsy) and
the contents of `package.json` in the working directory (`none` when the
file does not exist).  An uncaught exception terminates node with exit
status 1 and no write. -/
def cleanupPackage (tag : Option (List Char)) (packageJsonFile : Option Json) :
    ScriptOutcome :=
  match tag with
  | none => { exitCode := 1, writes := [] }
  | some t =>
      if t = [] then { exitCode := 1, writes := [] }
      else
        match packageJsonFile with
        | none => { exitCode := 1, writes := [] }
        | some pj =>
            match rewritePackageJson pj with
            | none => { exitCode := 1, writes := [] }
            | some pj' => { exitCode := 0, writes := [pj'] }

/-- Field lookup directly on a JSON value; `none` on non-objects. -/
def jsonLookup (j : Json) (k : String) : Option Json :=
  match j with
  | .obj fields => lookupField fields k
  | _ => none

/-- Sample `package.json` contents exercising every rewritten field. -/
def samplePackageFields : List (String × Json) :=
  [("name", .str "x-win"),
   ("devDependencies", .obj [("ava", .str "a"), ("typescript", .str "t")]),
   ("ava", .obj []),
   ("packageManager", .str "yarn"),
   ("scripts", .obj [("test", .str "ava")])]

/-- The rewrite of `samplePackageFields` that the script writes back. -/
def sampleRewritten : Json :=
  .obj [("name", .str "x-win"),
        ("devDependencies", .obj [("typescript", .str "t")]),
        ("scripts", .obj [])]

end CleanupPackage


namespace XWin

/-- A tick never changes the subscription map. -/
lemma tick_fst_subscriptions (host : String) (a : AdapterResult)
    (st : WatcherState) : (tick host a st).1.subscriptions = st.subscriptions := by
  unfold tick
  repeat' split
  all_goals rfl

/-- A tick never changes whether the timer is armed. -/
lemma tick_fst_armed (host : String) (a : AdapterResult) (st : WatcherState) :
    (tick host a st).1.pollTimerArmed = st.pollTimerArmed := by
  unfold tick
  repeat' split
  all_goals rfl

/-- A tick never changes the handle counter. -/
lemma tick_fst_nextHandle (host : String) (a : AdapterResult)
    (st : WatcherState) : (tick host a st).1.nextHandle = st.nextHandle := by
  unfold tick
  repeat' split
  all_goals rfl

/-- Disarming never changes the subscription map. -/
lemma disarmIfEmpty_subscriptions (st : WatcherState) :
    (disarmIfEmpty st).subscriptions = st.subscriptions := by
  unfold disarmIfEmpty
  split
  · rfl
  · rfl

/-- Disarming never changes the handle counter. -/
lemma disarmIfEmpty_nextHandle (st : WatcherState) :
    (disarmIfEmpty st).nextHandle = st.nextHandle := by
  unfold disarmIfEmpty
  split
  · rfl
  · rfl

/-- Disarming twice is the same as disarming once. -/
lemma disarmIfEmpty_idem (st : WatcherState) :
    disarmIfEmpty (disarmIfEmpty st) = disarmIfEmpty st := by
  unfold disarmIfEmpty
  by_cases hs : st.subscriptions.isEmpty
  · simp [hs]
  · simp [hs]

/-- The subscriptions left after an unsubscribe are exactly the filtered
map. -/
lemma unsubscribe_subscriptions (h : Int) (st : WatcherState) :
    (unsubscribeActiveWindow h st).subscriptions =
      st.subscriptions.filter (fun s => s.1 != h) := by
  unfold unsubscribeActiveWindow
  rw [disarmIfEmpty_subscriptions]

/-- No single operation ever decreases the handle counter. -/
lemma nextHandle_le_applyOp (op : Op) (st : WatcherState) :
    st.nextHandle ≤ (applyOp op st).nextHandle := by
  cases op with
  | subscribe cb =>
      show st.nextHandle ≤ st.nextHandle + 1
      omega
  | unsubscribe h =>
      show st.nextHandle ≤ (unsubscribeActiveWindow h st).nextHandle
      unfold unsubscribeActiveWindow
      rw [disarmIfEmpty_nextHandle]
  | unsubscribeAll => exact le_rfl
  | tickOp host a =>
      show st.nextHandle ≤ (tick host a st).1.nextHandle
      rw [tick_fst_nextHandle]

/-- No sequence of operations ever decreases the handle counter. -/
lemma nextHandle_le_run (ops : List Op) :
    ∀ st : WatcherState, st.nextHandle ≤ (run ops st).nextHandle := by
  induction ops with
  | nil => intro st; exact le_rfl
  | cons op rest ih =>
      intro st
      exact le_trans (nextHandle_le_applyOp op st) (ih (applyOp op st))

/-- A disarmed watcher never ticks: the state is untouched and nothing is
delivered. -/
lemma runTicks_unarmed (queries : List (String × AdapterResult)) :
    ∀ st : WatcherState, st.pollTimerArmed = false →
      runTicks queries st = (st, []) := by
  induction queries with
  | nil => intro st _; rfl
  | cons q rest ih =>
      intro st h
      obtain ⟨host, a⟩ := q
      have ht : tick host a st = (st, []) := by
        simp [tick, h]
      simp [runTicks, ht, ih st h]

end XWin

/-- C1: every WindowInfo produced by a successful `activeWindow()` call or
contained in a successful `openWindows()` result has its `os` field equal
to the host platform identifier, and every fact the adapter could not
supply takes its documented per-type default; every field is present with
a type-correct value by construction of the record. -/
theorem c1_snapshot_struct (host : String) (a : XWin.AdapterResult)
    (e : XWin.EnumResult) :
    (∀ w, XWin.activeWindow host a = .ok w →
      w.os = host ∧
      ∀ raw, (a = .ok raw ∨ a = .permissionDenied raw) →
        ((raw.title = none → w.title = "") ∧
         (raw.processId = none → w.processId = 0 ∧ w.info.processId = 0) ∧
         (raw.execName = none → w.info.execName = "") ∧
         (raw.name = none → w.info.name = "") ∧
         (raw.path = none → w.info.path = "") ∧
         (raw.position = none → w.position = ⟨0, 0, 0, 0⟩) ∧
         (raw.memory = none → w.usage.memory = 0))) ∧
    (∀ ws, XWin.openWindows host e = .ok ws → ∀ w ∈ ws, w.os = host ∧
      ∃ raw, w = XWin.normalize host raw ∧
        ((raw.title = none → w.title = "") ∧
         (raw.processId = none → w.processId = 0 ∧ w.info.processId = 0) ∧
         (raw.execName = none → w.info.execName = "") ∧
         (raw.name = none → w.info.name = "") ∧
         (raw.path = none → w.info.path = "") ∧
         (raw.position = none → w.position = ⟨0, 0, 0, 0⟩) ∧
         (raw.memory = none → w.usage.memory = 0))) := by
  constructor
  · intro w hw
    cases a with
    | unsupported => simp [XWin.activeWindow] at hw
    | ok raw =>
        simp only [XWin.activeWindow, Except.ok.injEq] at hw
        subst hw
        refine ⟨rfl, ?_⟩
        intro raw2 hr
        rcases hr with hr | hr
        · injection hr with hr2
          subst hr2
          refine ⟨?_, ?_, ?_, ?_, ?_, ?_, ?_⟩ <;>
            intro hn <;> simp [XWin.normalize, hn]
        · simp at hr
    | permissionDenied raw =>
        simp only [XWin.activeWindow, Except.ok.injEq] at hw
        subst hw
        refine ⟨rfl, ?_⟩
        intro raw2 hr
        rcases hr with hr | hr
        · simp at hr
        · injection hr with hr2
          subst hr2
          refine ⟨?_, ?_, ?_, ?_, ?_, ?_, ?_⟩ <;>
            intro hn <;> simp [XWin.normalize, hn]
  · intro ws hws w hw
    cases e with
    | unsupported => simp [XWin.openWindows] at hws
    | ok raws =>
        simp only [XWin.openWindows, Except.ok.injEq] at hws
        subst hws
        obtain ⟨raw, _, rfl⟩ := List.mem_map.mp hw
        refine ⟨rfl, raw, rfl, ?_, ?_, ?_, ?_, ?_, ?_, ?_⟩ <;>
          intro hn <;> simp [XWin.normalize, hn]

/-- Witness for C1 at a concrete adapter answer with every fact missing. -/
theorem c1_snapshot_struct_witness :
    (XWin.normalize "linux" XWin.sampleRawEmpty).os = "linux" ∧
    (XWin.normalize "linux" XWin.sampleRawEmpty).title = "" :=
  ⟨((c1_snapshot_struct "linux" (.ok XWin.sampleRawEmpty) (.ok [])).1
      (XWin.normalize "linux" XWin.sampleRawEmpty) rfl).1,
   (((c1_snapshot_struct "linux" (.ok XWin.sampleRawEmpty) (.ok [])).1
      (XWin.normalize "linux" XWin.sampleRawEmpty) rfl).2
      XWin.sampleRawEmpty (Or.inl rfl)).1 rfl⟩

/-- C2: the handle returned by a later `subscribeActiveWindow` call is
strictly greater than, and in particular distinct from, the handle
returned by any earlier call, across any interleaving of subscribe,
unsubscribe, unsubscribe-all and watcher ticks in between - handles are
monotonically issued and never reused within a process lifetime. -/
theorem c2_handle_uniqueness (st : XWin.WatcherState)
    (cb1 cb2 : XWin.Callback) (ops : List XWin.Op) :
    (XWin.subscribeActiveWindow cb1 st).1 <
      (XWin.subscribeActiveWindow cb2
        (XWin.run ops (XWin.subscribeActiveWindow cb1 st).2)).1 ∧
    (XWin.subscribeActiveWindow cb1 st).1 ≠
      (XWin.subscribeActiveWindow cb2
        (XWin.run ops (XWin.subscribeActiveWindow cb1 st).2)).1 := by
  have h2 := XWin.nextHandle_le_run ops (XWin.subscribeActiveWindow cb1 st).2
  have h1 : (XWin.subscribeActiveWindow cb1 st).2.nextHandle =
      st.nextHandle + 1 := rfl
  rw [h1] at h2
  have hlt : st.nextHandle <
      (XWin.run ops (XWin.subscribeActiveWindow cb1 st).2).nextHandle := by
    omega
  exact ⟨hlt, ne_of_lt hlt⟩

/-- Witness for C2: two immediate subscriptions from the initial state
get handles 0 and 1. -/
theorem c2_handle_uniqueness_witness :
    (XWin.subscribeActiveWindow XWin.sampleCb XWin.initialState).1 ≠
      (XWin.subscribeActiveWindow XWin.sampleCb
        (XWin.run [] (XWin.subscribeActiveWindow XWin.sampleCb
          XWin.initialState).2)).1 :=
  (c2_handle_uniqueness XWin.initialState XWin.sampleCb XWin.sampleCb []).2

/-- C3: on a watcher tick with at least one subscriber and a cached
`lastActiveWindow`, subscribers are notified exactly when the fresh
snapshot differs from the cache under the equality key (process id,
title, position); a change only in `usage.memory` never notifies; and
when a notification fires, `lastActiveWindow` is updated to the new
snapshot in the same step as notify-all. -/
theorem c3_tick_change_detection (host : String) (raw : XWin.RawWindowFacts)
    (st : XWin.WatcherState) (prev : XWin.WindowInfo)
    (harm : st.pollTimerArmed = true)
    (hprev : st.lastActiveWindow = some prev)
    (hsubs : st.subscriptions ≠ []) :
    ((XWin.tick host (.ok raw) st).2 ≠ [] ↔
      XWin.sameWindowKey prev (XWin.normalize host raw) = false) ∧
    (XWin.sameWindowKey prev (XWin.normalize host raw) = false →
      (XWin.tick host (.ok raw) st).1.lastActiveWindow =
        some (XWin.normalize host raw) ∧
      (XWin.tick host (.ok raw) st).2 =
        XWin.notifyAll st.subscriptions (XWin.normalize host raw)) ∧
    (∀ u, XWin.sameWindowKey prev { prev with usage := u } = true) ∧
    (∀ u, XWin.normalize host raw = { prev with usage := u } →
      (XWin.tick host (.ok raw) st).2 = []) := by
  have hkeyu : ∀ u, XWin.sameWindowKey prev { prev with usage := u } = true := by
    intro u
    simp [XWin.sameWindowKey]
  have ht : XWin.tick host (.ok raw) st =
      (if XWin.sameWindowKey prev (XWin.normalize host raw) then (st, [])
       else ({ st with lastActiveWindow := some (XWin.normalize host raw) },
             XWin.notifyAll st.subscriptions (XWin.normalize host raw))) := by
    simp [XWin.tick, harm, hprev, XWin.activeWindow]
  by_cases hkey : XWin.sameWindowKey prev (XWin.normalize host raw) = true
  · rw [ht, if_pos hkey]
    refine ⟨?_, ?_, hkeyu, ?_⟩
    · simp [hkey]
    · intro hf
      rw [hkey] at hf
      cases hf
    · intro u _
      rfl
  · have hkey' : XWin.sameWindowKey prev (XWin.normalize host raw) = false := by
      cases hb : XWin.sameWindowKey prev (XWin.normalize host raw) with
      | true => exact absurd hb hkey
      | false => rfl
    rw [ht, if_neg hkey]
    refine ⟨?_, fun _ => ⟨rfl, rfl⟩, hkeyu, ?_⟩
    · constructor
      · intro _
        exact hkey'
      · intro _
        simpa [XWin.notifyAll] using hsubs
    · intro u heq
      rw [heq, hkeyu u] at hkey'
      cases hkey'

/-- Witness for C3: from the cached default window, a snapshot with a new
title and process id produces a notification. -/
theorem c3_tick_change_detection_witness :
    (XWin.tick "linux" (.ok XWin.sampleRawActive) XWin.sampleState).2 ≠ [] :=
  (c3_tick_change_detection "linux" XWin.sampleRawActive XWin.sampleState
      XWin.sampleWindow rfl rfl (by simp [XWin.sampleState])).1.mpr (by decide)

/-- C4: after `unsubscribeAllActiveWindow()` the poll timer is disarmed
and no subsequent sequence of watcher ticks delivers a notification to
any callback, in particular to none of the previously registered ones. -/
theorem c4_unsubscribe_all_silences (st : XWin.WatcherState)
    (queries : List (String × XWin.AdapterResult)) :
    (XWin.unsubscribeAllActiveWindow st).pollTimerArmed = false ∧
    (XWin.runTicks queries (XWin.unsubscribeAllActiveWindow st)).2 = [] := by
  refine ⟨rfl, ?_⟩
  rw [XWin.runTicks_unarmed queries (XWin.unsubscribeAllActiveWindow st) rfl]

/-- Witness for C4 on the sample polling state and one pending tick. -/
theorem c4_unsubscribe_all_silences_witness :
    (XWin.runTicks [("linux", .ok XWin.sampleRawActive)]
      (XWin.unsubscribeAllActiveWindow XWin.sampleState)).2 = [] :=
  (c4_unsubscribe_all_silences XWin.sampleState
    [("linux", .ok XWin.sampleRawActive)]).2

/-- C5: `unsubscribeActiveWindow h` keeps exactly the subscribers whose
key differs from `h` and no others, never raises (it is a total
function), is a no-op on the subscription map when `h` was never issued
or already removed, and a second call with the same handle leaves the
whole state unchanged. -/
theorem c5_unsubscribe_exact (h : Int) (st : XWin.WatcherState) :
    (∀ p ∈ st.subscriptions,
      (p ∈ (XWin.unsubscribeActiveWindow h st).subscriptions ↔ p.1 ≠ h)) ∧
    (∀ p ∈ (XWin.unsubscribeActiveWindow h st).subscriptions,
      p ∈ st.subscriptions) ∧
    ((∀ p ∈ st.subscriptions, p.1 ≠ h) →
      (XWin.unsubscribeActiveWindow h st).subscriptions = st.subscriptions) ∧
    XWin.unsubscribeActiveWindow h (XWin.unsubscribeActiveWindow h st) =
      XWin.unsubscribeActiveWindow h st := by
  refine ⟨?_, ?_, ?_, ?_⟩
  · intro p hp
    rw [XWin.unsubscribe_subscriptions]
    simp [List.mem_filter, hp]
  · intro p hp
    rw [XWin.unsubscribe_subscriptions] at hp
    exact (List.mem_filter.mp hp).1
  · intro hall
    rw [XWin.unsubscribe_subscriptions]
    refine List.filter_eq_self.mpr ?_
    intro p hp
    simpa using hall p hp
  · have hflt : (XWin.unsubscribeActiveWindow h st).subscriptions.filter
        (fun s => s.1 != h) = (XWin.unsubscribeActiveWindow h st).subscriptions := by
      refine List.filter_eq_self.mpr ?_
      intro p hp
      rw [XWin.unsubscribe_subscriptions] at hp
      exact (List.mem_filter.mp hp).2
    show XWin.disarmIfEmpty
        { XWin.unsubscribeActiveWindow h st with
            subscriptions := (XWin.unsubscribeActiveWindow h st).subscriptions.filter
              (fun s => s.1 != h) } = XWin.unsubscribeActiveWindow h st
    rw [hflt]
    exact XWin.disarmIfEmpty_idem _

/-- Witness for C5: unsubscribing the never-issued handle -1 from the
sample state keeps its only subscription. -/
theorem c5_unsubscribe_exact_witness :
    ((0 : Int), XWin.sampleCb) ∈
      (XWin.unsubscribeActiveWindow (-1) XWin.sampleState).subscriptions :=
  ((c5_unsubscribe_exact (-1) XWin.sampleState).1 (0, XWin.sampleCb)
    (by simp [XWin.sampleState])).mpr (by decide)

/-- C6: `activeWindow()` fails exactly when the adapter reports the
platform unsupported, and then with `PlatformUnsupportedError`; an OS
permission denial instead yields a successful call whose result is the
best-effort normalization of the retrievable facts, with withheld fields
such as the title at their documented defaults. -/
theorem c6_active_window_errors (host : String) (a : XWin.AdapterResult) :
    (∀ err, XWin.activeWindow host a = .error err ↔
      (a = .unsupported ∧ err = .platformUnsupported)) ∧
    (∀ retrievable, a = .permissionDenied retrievable →
      XWin.activeWindow host a = .ok (XWin.normalize host retrievable) ∧
      (retrievable.title = none →
        (XWin.normalize host retrievable).title = "")) := by
  constructor
  · intro err
    cases a <;> cases err <;> simp [XWin.activeWindow]
  · intro r hr
    subst hr
    exact ⟨rfl, fun hn => by simp [XWin.normalize, hn]⟩

/-- Witness for C6: a permission denial withholding every fact still
succeeds with the fully defaulted record. -/
theorem c6_active_window_errors_witness :
    XWin.activeWindow "darwin" (.permissionDenied XWin.sampleRawEmpty) =
      .ok (XWin.normalize "darwin" XWin.sampleRawEmpty) ∧
    (XWin.normalize "darwin" XWin.sampleRawEmpty).title = "" :=
  ⟨((c6_active_window_errors "darwin"
      (.permissionDenied XWin.sampleRawEmpty)).2 XWin.sampleRawEmpty rfl).1,
   ((c6_active_window_errors "darwin"
      (.permissionDenied XWin.sampleRawEmpty)).2 XWin.sampleRawEmpty rfl).2 rfl⟩

/-- C7: the lifecycle invariant - poll timer armed exactly when the
subscription map is non-empty, and `lastActiveWindow` null whenever the
timer is disarmed - holds initially and is preserved by every operation;
consequently the first subscriber added to an empty registry receives the
first detected snapshot as a fresh notification. -/
theorem c7_lifecycle_invariant (st : XWin.WatcherState)
    (hinv : XWin.LifecycleInv st) :
    XWin.LifecycleInv XWin.initialState ∧
    (∀ op, XWin.LifecycleInv (XWin.applyOp op st)) ∧
    (st.subscriptions = [] → ∀ cb host raw,
      (XWin.tick host (.ok raw) (XWin.subscribeActiveWindow cb st).2).2 =
        [((XWin.subscribeActiveWindow cb st).1,
          cb (XWin.normalize host raw))]) := by
  refine ⟨?_, ?_, ?_⟩
  · constructor
    · simp [XWin.initialState]
    · intro _
      rfl
  · intro op
    cases op with
    | subscribe cb =>
        constructor
        · show (true = true ↔ st.subscriptions ++ [(st.nextHandle, cb)] ≠ [])
          simp
        · intro hf
          cases hf
    | unsubscribe h =>
        show XWin.LifecycleInv (XWin.unsubscribeActiveWindow h st)
        unfold XWin.unsubscribeActiveWindow XWin.disarmIfEmpty
        by_cases he : (st.subscriptions.filter (fun s => s.1 != h)).isEmpty
        · rw [if_pos (by simpa using he)]
          constructor
          · simpa using he
          · intro _
            rfl
        · rw [if_neg (by simpa using he)]
          have hne : st.subscriptions.filter (fun s => s.1 != h) ≠ [] := by
            simpa [List.isEmpty_iff] using he
          have hsubs : st.subscriptions ≠ [] := by
            intro hz
            rw [hz] at hne
            exact hne rfl
          have harm : st.pollTimerArmed = true := hinv.1.mpr hsubs
          constructor
          · show st.pollTimerArmed = true ↔ _
            simp [harm, hne]
          · show st.pollTimerArmed = false → _
            intro hf
            rw [harm] at hf
            cases hf
    | unsubscribeAll =>
        constructor
        · show (false = true ↔ ([] : List (Int × XWin.Callback)) ≠ [])
          simp
        · intro _
          rfl
    | tickOp host a =>
        show XWin.LifecycleInv (XWin.tick host a st).1
        constructor
        · rw [XWin.tick_fst_armed, XWin.tick_fst_subscriptions]
          exact hinv.1
        · rw [XWin.tick_fst_armed]
          intro hf
          have hz : st.subscriptions = [] := by
            by_contra hnz
            rw [hinv.1.mpr hnz] at hf
            cases hf
          have : XWin.tick host a st = (st, []) := by
            simp [XWin.tick, hf]
          rw [this]
          exact hinv.2 hf
  · intro hempty cb host raw
    have harm0 : st.pollTimerArmed = false := by
      cases hb : st.pollTimerArmed with
      | false => rfl
      | true => exact absurd hempty (hinv.1.mp hb)
    have hlast : st.lastActiveWindow = none := hinv.2 harm0
    simp [XWin.tick, XWin.subscribeActiveWindow, hempty, hlast,
      XWin.activeWindow, XWin.notifyAll]

/-- Witness for C7: the very first subscriber from the initial state is
notified with the first snapshot. -/
theorem c7_lifecycle_invariant_witness :
    (XWin.tick "linux" (.ok XWin.sampleRawActive)
      (XWin.subscribeActiveWindow XWin.sampleCb XWin.initialState).2).2 =
      [((XWin.subscribeActiveWindow XWin.sampleCb XWin.initialState).1,
        XWin.sampleCb (XWin.normalize "linux" XWin.sampleRawActive))] :=
  (c7_lifecycle_invariant XWin.initialState
    (by simp [XWin.LifecycleInv, XWin.initialState])).2.2 rfl
    XWin.sampleCb "linux" XWin.sampleRawActive

/-- C8: `notifyAll` invokes every currently registered callback exactly
once with the notified value - the delivery log has one entry per
subscriber, in registration order, containing that callback's own
outcome - so a raising callback removes no other delivery; and a tick
never drops subscriptions or disarms the timer, so callback errors never
terminate the watcher loop. -/
theorem c8_notify_isolation (subs : List (Int × XWin.Callback))
    (info : XWin.WindowInfo) (host : String) (a : XWin.AdapterResult)
    (st : XWin.WatcherState) :
    (XWin.notifyAll subs info).map Prod.fst = subs.map Prod.fst ∧
    (XWin.notifyAll subs info).length = subs.length ∧
    (∀ p ∈ subs, (p.1, p.2 info) ∈ XWin.notifyAll subs info) ∧
    (XWin.tick host a st).1.subscriptions = st.subscriptions ∧
    (XWin.tick host a st).1.pollTimerArmed = st.pollTimerArmed := by
  refine ⟨?_, ?_, ?_, XWin.tick_fst_subscriptions host a st,
    XWin.tick_fst_armed host a st⟩
  · induction subs with
    | nil => rfl
    | cons p rest ih => simp [XWin.notifyAll] at ih ⊢
  · simp [XWin.notifyAll]
  · intro p hp
    exact List.mem_map.mpr ⟨p, hp, rfl⟩

/-- Witness for C8: with a raising callback registered first, the second
subscriber is still notified. -/
theorem c8_notify_isolation_witness :
    ((1 : Int), XWin.sampleCb XWin.sampleWindow) ∈
      XWin.notifyAll [(0, fun _ => .raised), (1, XWin.sampleCb)]
        XWin.sampleWindow :=
  (c8_notify_isolation [(0, fun _ => .raised), (1, XWin.sampleCb)]
    XWin.sampleWindow "linux" (.ok XWin.sampleRawEmpty)
    XWin.sampleState).2.2.1 (1, XWin.sampleCb) (by simp)

namespace CleanupPackage

/-- Looking up a deleted key yields nothing. -/
lemma lookupField_deleteField_self (fs : List (String × Json)) (k : String) :
    lookupField (deleteField fs k) k = none := by
  induction fs with
  | nil => rfl
  | cons p rest ih =>
      obtain ⟨k0, v⟩ := p
      by_cases h : k0 = k
      · simpa [deleteField, h] using ih
      · simpa [deleteField, lookupField, h] using ih

/-- Deleting one key does not affect lookups of any other key. -/
lemma lookupField_deleteField_ne (fs : List (String × Json)) (k k2 : String)
    (h : k2 ≠ k) :
    lookupField (deleteField fs k) k2 = lookupField fs k2 := by
  have hne : ¬(k = k2) := fun he => h he.symm
  induction fs with
  | nil => rfl
  | cons p rest ih =>
      obtain ⟨k0, v⟩ := p
      by_cases h0 : k0 = k
      · subst h0
        simp [deleteField, lookupField, hne, ih]
      · by_cases h2 : k0 = k2
        · subst h2
          simp [deleteField, lookupField, h0]
        · simp [deleteField, lookupField, h0, h2, ih]

/-- Looking up an assigned key yields the assigned value. -/
lemma lookupField_setField_self (fs : List (String × Json)) (k : String)
    (v : Json) : lookupField (setField fs k v) k = some v := by
  induction fs with
  | nil => simp [setField, lookupField]
  | cons p rest ih =>
      obtain ⟨k0, v0⟩ := p
      by_cases h : k0 = k
      · simp [setField, lookupField, h]
      · simpa [setField, lookupField, h] using ih

/-- Assigning one key does not affect lookups of any other key. -/
lemma lookupField_setField_ne (fs : List (String × Json)) (k k2 : String)
    (v : Json) (h : k2 ≠ k) :
    lookupField (setField fs k v) k2 = lookupField fs k2 := by
  have hne : ¬(k = k2) := fun he => h he.symm
  induction fs with
  | nil => simp [setField, lookupField, hne]
  | cons p rest ih =>
      obtain ⟨k0, v0⟩ := p
      by_cases h0 : k0 = k
      · subst h0
        simp [setField, lookupField, hne]
      · by_cases h2 : k0 = k2
        · subst h2
          simp [setField, lookupField, h0]
        · simp [setField, lookupField, h0, h2, ih]

/-- Lookup facts about the final top-level object the script writes:
`ava` and `packageManager` are gone, `scripts` is the empty object, and
every other key reads as it did before the two deletions and the
assignment. -/
lemma finalFields_lookup (fields1 : List (String × Json)) :
    lookupField (setField (deleteField (deleteField fields1 "ava")
      "packageManager") "scripts" (.obj [])) "ava" = none ∧
    lookupField (setField (deleteField (deleteField fields1 "ava")
      "packageManager") "scripts" (.obj [])) "packageManager" = none ∧
    lookupField (setField (deleteField (deleteField fields1 "ava")
      "packageManager") "scripts" (.obj [])) "scripts" = some (.obj []) ∧
    ∀ k, k ≠ "ava" → k ≠ "packageManager" → k ≠ "scripts" →
      lookupField (setField (deleteField (deleteField fields1 "ava")
        "packageManager") "scripts" (.obj [])) k = lookupField fields1 k := by
  refine ⟨?_, ?_, lookupField_setField_self _ _ _, ?_⟩
  · rw [lookupField_setField_ne _ _ _ _ (by decide),
      lookupField_deleteField_ne _ _ _ (by decide),
      lookupField_deleteField_self]
  · rw [lookupField_setField_ne _ _ _ _ (by decide),
      lookupField_deleteField_self]
  · intro k h1 h2 h3
    rw [lookupField_setField_ne _ _ _ _ h3,
      lookupField_deleteField_ne _ _ _ h2,
      lookupField_deleteField_ne _ _ _ h1]

end CleanupPackage

namespace CleanupPackage

/-- Lookup on an object value is lookup in its field list. -/
lemma jsonLookup_obj (fs : List (String × Json)) (k : String) :
    jsonLookup (.obj fs) k = lookupField fs k := rfl

/-- When `devDependencies` is present but neither an object nor null, the
sloppy-mode `delete` calls are silent no-ops. -/
lemma deleteDevDeps_prim (fields : List (String × Json)) (v : Json)
    (hlk : lookupField fields "devDependencies" = some v)
    (hnull : v ≠ .null) (hobj : ∀ dd, v ≠ .obj dd) :
    deleteDevDeps fields = some fields := by
  unfold deleteDevDeps
  rw [hlk]
  cases v with
  | null => exact absurd rfl hnull
  | obj dd => exact absurd rfl (hobj dd)
  | bool b => rfl
  | num n => rfl
  | str s => rfl
  | arr l => rfl

end CleanupPackage

/-- C9: the script exits with status 1 and writes nothing when the TAG
environment variable is unset or when no `package.json` exists in the
working directory, and whenever it exits with status 0 it has written
`package.json` exactly once. -/
theorem c9_script_exit (tag : Option (List Char))
    (pj : Option CleanupPackage.Json) :
    (tag = none → CleanupPackage.cleanupPackage tag pj =
      { exitCode := 1, writes := [] }) ∧
    (pj = none → CleanupPackage.cleanupPackage tag pj =
      { exitCode := 1, writes := [] }) ∧
    ((CleanupPackage.cleanupPackage tag pj).exitCode = 0 →
      (CleanupPackage.cleanupPackage tag pj).writes.length = 1) := by
  refine ⟨?_, ?_, ?_⟩
  · intro h
    subst h
    rfl
  · intro h
    subst h
    cases tag with
    | none => rfl
    | some t =>
        by_cases ht : t = []
        · simp [CleanupPackage.cleanupPackage, ht]
        · simp [CleanupPackage.cleanupPackage, ht]
  · cases tag with
    | none => simp [CleanupPackage.cleanupPackage]
    | some t =>
        by_cases ht : t = []
        · simp [CleanupPackage.cleanupPackage, ht]
        · cases pj with
          | none => simp [CleanupPackage.cleanupPackage, ht]
          | some p =>
              cases hrw : CleanupPackage.rewritePackageJson p with
              | none => simp [CleanupPackage.cleanupPackage, ht, hrw]
              | some p2 => simp [CleanupPackage.cleanupPackage, ht, hrw]

/-- Witness for C9: with TAG unset the script exits 1 without writing. -/
theorem c9_script_exit_witness :
    CleanupPackage.cleanupPackage none none =
      { exitCode := 1, writes := [] } :=
  (c9_script_exit none none).1 rfl

/-- C10: the version string the script computes strips exactly one
leading `v` from TAG and leaves other TAGs unchanged; and on the success
path the rewritten `package.json` has no top-level `ava` or
`packageManager` entry, an empty `scripts` object, no
`devDependencies.ava` or `devDependencies.husky` entry, and every other
top-level field and every other `devDependencies` entry preserved. -/
theorem c10_version_and_rewrite (t : Option (List Char))
    (pjf : Option CleanupPackage.Json)
    (fields : List (String × CleanupPackage.Json))
    (pj' : CleanupPackage.Json)
    (hpjf : pjf = some (.obj fields))
    (hrun : CleanupPackage.cleanupPackage t pjf =
      { exitCode := 0, writes := [pj'] }) :
    (∀ s, CleanupPackage.version ('v' :: s) = s) ∧
    (∀ tag, tag.head? ≠ some 'v' → CleanupPackage.version tag = tag) ∧
    CleanupPackage.jsonLookup pj' "ava" = none ∧
    CleanupPackage.jsonLookup pj' "packageManager" = none ∧
    CleanupPackage.jsonLookup pj' "scripts" = some (.obj []) ∧
    (∀ k, k ≠ "ava" → k ≠ "packageManager" → k ≠ "scripts" →
      k ≠ "devDependencies" →
      CleanupPackage.jsonLookup pj' k = CleanupPackage.lookupField fields k) ∧
    (∀ dd', CleanupPackage.jsonLookup pj' "devDependencies" =
        some (.obj dd') →
      CleanupPackage.lookupField dd' "ava" = none ∧
      CleanupPackage.lookupField dd' "husky" = none ∧
      ∀ dd, CleanupPackage.lookupField fields "devDependencies" =
          some (.obj dd) →
        ∀ k2, k2 ≠ "ava" → k2 ≠ "husky" →
          CleanupPackage.lookupField dd' k2 =
            CleanupPackage.lookupField dd k2) := by
  subst hpjf
  have hv2 : ∀ tag : List Char, tag.head? ≠ some 'v' →
      CleanupPackage.version tag = tag := by
    intro tag htag
    simp [CleanupPackage.version, htag]
  cases t with
  | none => simp [CleanupPackage.cleanupPackage] at hrun
  | some tg =>
      by_cases htg : tg = []
      · simp [CleanupPackage.cleanupPackage, htg] at hrun
      · cases hlk : CleanupPackage.lookupField fields "devDependencies" with
        | none =>
            have hdd : CleanupPackage.deleteDevDeps fields = none := by
              unfold CleanupPackage.deleteDevDeps
              rw [hlk]
            have hrw : CleanupPackage.rewritePackageJson (.obj fields) = none := by
              simp only [CleanupPackage.rewritePackageJson, hdd]
            simp [CleanupPackage.cleanupPackage, htg, hrw] at hrun
        | some v =>
            by_cases hnull : v = .null
            · subst hnull
              have hdd : CleanupPackage.deleteDevDeps fields = none := by
                unfold CleanupPackage.deleteDevDeps
                rw [hlk]
              have hrw : CleanupPackage.rewritePackageJson (.obj fields) = none := by
                simp only [CleanupPackage.rewritePackageJson, hdd]
              simp [CleanupPackage.cleanupPackage, htg, hrw] at hrun
            · by_cases hobj : ∃ dd, v = CleanupPackage.Json.obj dd
              · obtain ⟨dd, rfl⟩ := hobj
                have hdd : CleanupPackage.deleteDevDeps fields =
                    some (CleanupPackage.setField fields "devDependencies"
                      (.obj (CleanupPackage.deleteField
                        (CleanupPackage.deleteField dd "ava") "husky"))) := by
                  unfold CleanupPackage.deleteDevDeps
                  rw [hlk]
                have hrw : CleanupPackage.rewritePackageJson (.obj fields) =
                    some (.obj (CleanupPackage.setField
                      (CleanupPackage.deleteField (CleanupPackage.deleteField
                        (CleanupPackage.setField fields "devDependencies"
                          (.obj (CleanupPackage.deleteField
                            (CleanupPackage.deleteField dd "ava") "husky")))
                        "ava") "packageManager") "scripts" (.obj []))) := by
                  simp only [CleanupPackage.rewritePackageJson, hdd]
                simp [CleanupPackage.cleanupPackage, htg, hrw] at hrun
                subst hrun
                obtain ⟨ha, hp, hs, ho⟩ := CleanupPackage.finalFields_lookup
                  (CleanupPackage.setField fields "devDependencies"
                    (.obj (CleanupPackage.deleteField
                      (CleanupPackage.deleteField dd "ava") "husky")))
                refine ⟨fun s => rfl, hv2, ha, hp, hs, ?_, ?_⟩
                · intro k h1 h2 h3 h4
                  rw [CleanupPackage.jsonLookup_obj, ho k h1 h2 h3]
                  exact CleanupPackage.lookupField_setField_ne fields
                    "devDependencies" k _ h4
                · intro dd' hdd'
                  rw [CleanupPackage.jsonLookup_obj,
                    ho "devDependencies" (by decide) (by decide) (by decide),
                    CleanupPackage.lookupField_setField_self] at hdd'
                  injection hdd' with hdd2
                  injection hdd2 with hdd3
                  subst hdd3
                  refine ⟨?_, ?_, ?_⟩
                  · rw [CleanupPackage.lookupField_deleteField_ne _ _ _
                      (by decide)]
                    exact CleanupPackage.lookupField_deleteField_self dd "ava"
                  · exact CleanupPackage.lookupField_deleteField_self _ "husky"
                  · intro dd0 hdd0 k2 hk2a hk2h
                    have hdd4 : dd = dd0 :=
                      CleanupPackage.Json.obj.inj (Option.some.inj hdd0)
                    subst hdd4
                    rw [CleanupPackage.lookupField_deleteField_ne _ _ _ hk2h,
                      CleanupPackage.lookupField_deleteField_ne _ _ _ hk2a]
              · have hobj' : ∀ dd0, v ≠ CleanupPackage.Json.obj dd0 :=
                  fun dd0 he => hobj ⟨dd0, he⟩
                have hdd : CleanupPackage.deleteDevDeps fields = some fields :=
                  CleanupPackage.deleteDevDeps_prim fields v hlk hnull hobj'
                have hrw : CleanupPackage.rewritePackageJson (.obj fields) =
                    some (.obj (CleanupPackage.setField
                      (CleanupPackage.deleteField (CleanupPackage.deleteField
                        fields "ava") "packageManager") "scripts"
                      (.obj []))) := by
                  simp only [CleanupPackage.rewritePackageJson, hdd]
                simp [CleanupPackage.cleanupPackage, htg, hrw] at hrun
                subst hrun
                obtain ⟨ha, hp, hs, ho⟩ :=
                  CleanupPackage.finalFields_lookup fields
                refine ⟨fun s => rfl, hv2, ha, hp, hs, ?_, ?_⟩
                · intro k h1 h2 h3 _
                  exact ho k h1 h2 h3
                · intro dd' hdd'
                  rw [CleanupPackage.jsonLookup_obj,
                    ho "devDependencies" (by decide) (by decide) (by decide),
                    hlk] at hdd'
                  injection hdd' with hch2
                  exact absurd hch2 (hobj' dd')

/-- Witness for C10 on a concrete tag and package file. -/
theorem c10_version_and_rewrite_witness :
    CleanupPackage.version ['v', '1'] = ['1'] ∧
    CleanupPackage.jsonLookup CleanupPackage.sampleRewritten "ava" = none ∧
    CleanupPackage.jsonLookup CleanupPackage.sampleRewritten "scripts" =
      some (.obj []) :=
  ⟨(c10_version_and_rewrite (some ['v', '1'])
      (some (.obj CleanupPackage.samplePackageFields))
      CleanupPackage.samplePackageFields CleanupPackage.sampleRewritten
      rfl rfl).1 ['1'],
   (c10_version_and_rewrite (some ['v', '1'])
      (some (.obj CleanupPackage.samplePackageFields))
      CleanupPackage.samplePackageFields CleanupPackage.sampleRewritten
      rfl rfl).2.2.1,
   (c10_version_and_rewrite (some ['v', '1'])
      (some (.obj CleanupPackage.samplePackageFields))
      CleanupPackage.samplePackageFields CleanupPackage.sampleRewritten
      rfl rfl).2.2.2.2.1⟩
